import Mathlib

/-!
Verification of the avocado `Job` module (`avocado/core/job.py`): a shallow
embedding of the job lifecycle (construction, `setup`, `run`, `run_tests`),
of the results-directory finalization (`_setup_job_results`,
`_update_latest_link`), and proofs of the spec's claims about them.

External collaborators (the suite execution engine, the hook dispatchers, the
result renderer, logging) are modelled as trace events and environment
oracles, following the contracts stated in the spec.  Machine-level failures
of `os` calls (OSError) are injected through an explicit oracle.
-/

namespace Avocado

instance exceptDecEq {ε α : Type} [DecidableEq ε] [DecidableEq α] :
    DecidableEq (Except ε α) := fun a b =>
  match a, b with
  | .error x, .error y =>
    if h : x = y then .isTrue (by rw [h]) else .isFalse (fun hc => h (Except.error.inj hc))
  | .ok x, .ok y =>
    if h : x = y then .isTrue (by rw [h]) else .isFalse (fun hc => h (Except.ok.inj hc))
  | .error _, .ok _ => .isFalse (fun hc => Except.noConfusion hc)
  | .ok _, .error _ => .isFalse (fun hc => Except.noConfusion hc)

/-- Modelled from the spec: the `avocado.core.exit_codes` module is not part
of the given source.  The spec describes the exit code as "an enumerated,
host-configurable set of independent bits (e.g., TESTS_FAIL, JOB_FAIL, CRASH,
INTERRUPTED) ... combined by bitwise-OR", initialized to the all-OK value
zero.  We model the four flags as distinct single bits. -/
def AVOCADO_ALL_OK : Nat := 0

/-- Modelled from the spec: the TESTS_FAIL bit. -/
def AVOCADO_TESTS_FAIL : Nat := 1

/-- Modelled from the spec: the JOB_FAIL bit. -/
def AVOCADO_JOB_FAIL : Nat := 2

/-- Modelled from the spec: the CRASH bit (named `AVOCADO_FAIL` in the code). -/
def AVOCADO_FAIL : Nat := 4

/-- Modelled from the spec: the INTERRUPTED bit. -/
def AVOCADO_JOB_INTERRUPTED : Nat := 8

/-- Outcome tags: the closed vocabulary a suite's `run` may report
(spec section 3; used by `Job.run_tests` via membership tests on the
summary set). -/
inductive OutcomeTag
  | PASS
  | FAIL
  | ERROR
  | INTERRUPTED
  | CANCEL
  | SKIP
deriving DecidableEq

/-- A test suite, as seen by the job: an external entity exposing `name`,
`size` and a `run(job) -> set of outcome tags` contract (spec section 6).
The `outcome` field records the tag set its `run` returns. -/
structure TestSuite where
  name : String
  size : Nat
  outcome : Finset OutcomeTag
deriving DecidableEq

/-- Entries of the modelled filesystem: regular files carry their content,
symbolic links carry their resolved target path (a relative link created at
`p` with target `t` is stored resolved against `dirname p`). -/
inductive FSEntry
  | file (content : String)
  | dir
  | symlink (target : String)
deriving DecidableEq

/-- A small filesystem model: an association list from absolute path to
entry (most recent write first). -/
structure FS where
  entries : List (String × FSEntry)
deriving DecidableEq

def FS.lookup (fs : FS) (p : String) : Option FSEntry :=
  (fs.entries.find? (fun e => e.1 == p)).map (fun e => e.2)

/-- Bind `p` to `e`: the new entry shadows any older one (used for writes
that replace the destination, such as `open(.., 'w')` and `os.rename`;
plain `os.symlink` never replaces — see its call sites, which first check
for an existing entry). -/
def FS.set (fs : FS) (p : String) (e : FSEntry) : FS :=
  ⟨(p, e) :: fs.entries⟩

def FS.remove (fs : FS) (p : String) : FS :=
  ⟨fs.entries.filter (fun x => x.1 ≠ p)⟩

/-- `os.path.islink`: true when the entry at `p` is a symbolic link. -/
def FS.isLink (fs : FS) (p : String) : Bool :=
  match fs.lookup p with
  | some (FSEntry.symlink _) => true
  | _ => false

/-- `os.path.exists`: follows symbolic links, so a dangling link does not
"exist". -/
def FS.pathExists (fs : FS) (p : String) : Bool :=
  match fs.lookup p with
  | none => false
  | some (FSEntry.symlink t) => (fs.lookup t).isSome
  | some _ => true

/-- `os.path.basename`: the part of the path after the last slash. -/
def basename (p : String) : String :=
  String.mk ((p.toList.reverse.takeWhile (fun c => c != '/')).reverse)

/-- `os.path.dirname`: the part of the path before the last slash. -/
def dirname (p : String) : String :=
  String.mk (((p.toList.reverse.dropWhile (fun c => c != '/')).drop 1).reverse)

/-- An `OSError` raised by an `os` call. -/
inductive OSErr
  | osError
deriving DecidableEq

/-- Failure oracle for the `os` calls made by `Job._update_latest_link`:
each flag injects an `OSError` into the corresponding call site. -/
structure OSEnv where
  unlink_stale_raises : Bool
  symlink_raises : Bool
  rename_raises : Bool
  cleanup_unlink_raises : Bool
deriving DecidableEq

/-- `Job._update_latest_link` (source lines 387-417): update the
`[avocado-logs-dir]/latest` symlink through a process-scoped staging link
`latest.<pid>` and a rename.  Failures of the stale-link removal and of the
symlink/rename pair are soft-aborted (only a warning is returned); the
`finally` block's cleanup `os.unlink(proc_latest)` is *not* guarded, so its
failure propagates as an `OSError`.  `os.symlink` raises `FileExistsError`
(an `OSError`, hence also soft-aborted) when the staging path still holds
an entry — in particular a *dangling* stale staging link survives the
`os.path.exists` check (which follows links) and then defeats the symlink
creation. -/
def update_latest_link (fs : FS) (env : OSEnv) (logdir : String) (pid : Nat) :
    Except OSErr (FS × List String) :=
  let bdir := dirname logdir
  let bname := basename logdir
  let proc_latest := bdir ++ "/latest." ++ toString pid
  let latest := bdir ++ "/latest"
  if fs.pathExists latest && ! fs.isLink latest then
    .ok (fs, ["Unable to update the latest link: already exists and is not a symlink"])
  else if fs.pathExists proc_latest && env.unlink_stale_raises then
    .ok (fs, ["Unable to update the latest link: unable to remove staging link"])
  else
    let fs1 := if fs.pathExists proc_latest then fs.remove proc_latest else fs
    if env.symlink_raises || (fs1.lookup proc_latest).isSome then
      .ok (fs1, ["Unable to update the latest link: unable to create latest symlink"])
    else
      let fs2 := fs1.set proc_latest (FSEntry.symlink (bdir ++ "/" ++ bname))
      if env.rename_raises then
        if fs2.pathExists proc_latest then
          if env.cleanup_unlink_raises then .error OSErr.osError
          else .ok (fs2.remove proc_latest,
                    ["Unable to update the latest link: unable to create latest symlink"])
        else .ok (fs2, ["Unable to update the latest link: unable to create latest symlink"])
      else
        let fs3 := (fs2.remove proc_latest).set latest (FSEntry.symlink (bdir ++ "/" ++ bname))
        if fs3.pathExists proc_latest then
          if env.cleanup_unlink_raises then .error OSErr.osError
          else .ok (fs3.remove proc_latest, [])
        else .ok (fs3, [])

/-- The job configuration options the embedded code consults
(`self.config.get(...)` in the source). -/
structure Config where
  dry_run_enabled : Bool
  results_dir : Option String
  unique_job_id : Option String
  keep_tmp : Bool
  job_category : Option String
deriving DecidableEq

/-- The `Job` entity: the fields of `Job.__init__` that the embedded
operations read or write.  `result` models `self.result` as an optional
`tests_total` count (`None` until `setup()` builds the Result object);
`time_start`, `time_end` and `time_elapsed` use the source's `-1`
sentinel for "not yet set". -/
structure Job where
  config : Config
  test_suites : List TestSuite
  logdir : Option String
  logfile : Option String
  tmpdir : Option String
  keep_tmpdir : Bool
  base_tmpdir : Option String
  status : String
  result : Option Nat
  time_start : Int
  time_end : Int
  time_elapsed : Int
  unique_id : String
  exitcode : Nat
deriving DecidableEq

/-- The job-level errors raised by the embedded code paths:
`JobTestSuiteDuplicateNameError` from the constructor, `AssertionError`
from the call-once preconditions of `setup()`/`run()`, a propagated
`OSError` out of `_update_latest_link`'s unguarded cleanup unlink, and the
unbound-local failure of `run()`'s `finally` block when the guarded region
raised before `pre_post_dispatcher` was bound. -/
inductive JobError
  | JobTestSuiteDuplicateNameError (msg : String)
  | assertionFailed (msg : String)
  | osError
  | unboundLocalInFinally
deriving DecidableEq

/-- The externally observable calls `Job.run`, `Job.run_tests`,
`Job._setup_job_results` and `Job.setup` make on their collaborators
(hook dispatchers, renderer, loggers, the id marker file handle), in
order. -/
inductive Event
  | preDispatch
  | preTests
  | postTests
  | renderResults
  | postDispatch
  | logJobDebugInfo
  | jobdataRecord
  | logErrorUnableToResolve
  | logTestResultsAvailable
  | logErrorJobFailed
  | logErrorOptionValidation
  | logErrorCrashed
  | logWarning (msg : String)
  | idFileWrite
  | idFileFlush
  | idFileFsync
deriving DecidableEq

/-- `Job._check_test_suite_name_uniqueness` (source lines 654-663): the
suite names that occur more than once. -/
def duplicate_names (test_suites : List TestSuite) : List String :=
  let all_names := test_suites.map TestSuite.name
  all_names.filter (fun n => all_names.count n > 1)

/-- `Job.__init__` (source lines 112-173): applies the dry-run tweak to the
configuration, validates suite-name uniqueness (raising
`JobTestSuiteDuplicateNameError` on duplicates, before anything else is
allocated), and initializes all fields.  `generated_id` stands for the
external `create_unique_job_id()` used when the configuration supplies no
id.  The constructor touches no filesystem state: it neither receives nor
produces an `FS`. -/
def Job.init (config : Config) (generated_id : String) (test_suites : List TestSuite) :
    Except JobError Job :=
  let config :=
    if config.dry_run_enabled ∧ config.unique_job_id = none then
      { config with unique_job_id := some (String.mk (List.replicate 40 '0')) }
    else config
  if duplicate_names test_suites ≠ [] then
    .error (JobError.JobTestSuiteDuplicateNameError
      "Job contains suites with duplicate names")
  else
    .ok
      { config := config
        test_suites := test_suites
        logdir := none
        logfile := none
        tmpdir := none
        keep_tmpdir := true
        base_tmpdir := none
        status := "RUNNING"
        result := none
        time_start := -1
        time_end := -1
        time_elapsed := -1
        unique_id := config.unique_job_id.getD generated_id
        exitcode := AVOCADO_ALL_OK }

/-- `Job.size` (source lines 452-455): the sum of all suite sizes. -/
def Job.size (j : Job) : Nat :=
  (j.test_suites.map TestSuite.size).sum

/-- The union of the outcome-tag sets returned by the suites, as
accumulated by `run_tests` (`summary |= suite.run(self)`). -/
def Job.summary (j : Job) : Finset OutcomeTag :=
  j.test_suites.foldl (fun acc s => acc ∪ s.outcome) ∅

/-- `Job._update_latest_link` as a method: the update only reads
`self.logdir`; it assigns no other attribute of the job, so the job value
is returned unchanged. -/
def Job.update_latest_link_method (j : Job) (fs : FS) (env : OSEnv) (pid : Nat) :
    Except OSErr (Job × FS × List String) :=
  match update_latest_link fs env (j.logdir.getD "") pid with
  | .error e => .error e
  | .ok (fs2, warns) => .ok (j, fs2, warns)

/-- Environment oracle for `Job.setup`: the directory names produced by the
external allocators (`data_dir.create_job_logs_dir`, `tempfile.mkdtemp`),
the process id, and the `os`-failure oracle for the latest-link update. -/
structure SetupEnv where
  created_logdir : String
  pid : Nat
  os_env : OSEnv
  dry_run_tmp : String
  base_tmp : String
  job_tmp : String
deriving DecidableEq

/-- `Job._setup_job_results` (source lines 367-385): create the job results
directory (delegated to the external allocator, which yields
`env.created_logdir`), update the `latest` link unless dry-running, record
the log file path, and write the `id` marker file — its content is the
unique id plus one newline, and the file handle is flushed and fsynced
before returning. -/
def Job.setup_job_results (j : Job) (env : SetupEnv) (fs : FS) :
    Except JobError (Job × FS × List Event) :=
  let logdir := env.created_logdir
  let fs := fs.set logdir FSEntry.dir
  let j := { j with logdir := some logdir }
  let next : Except OSErr (Job × FS × List String) :=
    if ¬ j.config.dry_run_enabled then
      j.update_latest_link_method fs env.os_env env.pid
    else .ok (j, fs, [])
  match next with
  | .error _ => .error JobError.osError
  | .ok (j, fs, warns) =>
    let j := { j with logfile := some (logdir ++ "/job.log") }
    let idfile := logdir ++ "/id"
    let fs := fs.set idfile (FSEntry.file (j.unique_id ++ "\n"))
    .ok (j, fs, warns.map Event.logWarning ++
          [Event.idFileWrite, Event.idFileFlush, Event.idFileFsync])

/-- Modelled from the spec: `avocado.utils.astring.string_to_safe_path` is
not part of the given source; the spec only requires "a filesystem-safe
normalization" that the category name must equal.  We keep safe characters
and replace the rest with an underscore. -/
def string_to_safe_path (s : String) : String :=
  String.mk (s.toList.map (fun c =>
    if c.isAlphanum ∨ c = '_' ∨ c = '-' ∨ c = '.' then c else '_'))

/-- `Job._setup_job_category` (source lines 323-365): best-effort category
bookkeeping — no category configured means no action; an unsafe category
name is rejected with a warning; otherwise `os.mkdir` creates the category
directory (`FileExistsError` is passed over), and `os.symlink` creates a
relative link to the job results directory.  `os.symlink` never replaces
an existing entry: when the link path already holds one it raises
(`FileExistsError`, an `OSError`), which the source catches and turns into
a warning. -/
def Job.setup_job_category (j : Job) (fs : FS) : FS × List Event :=
  match j.config.job_category with
  | none => (fs, [])
  | some category =>
    if category ≠ string_to_safe_path category then
      (fs, [Event.logWarning "Unable to set category in job results"])
    else
      let logdir := j.logdir.getD ""
      let category_path := dirname logdir ++ "/" ++ category
      let fs := if (fs.lookup category_path).isSome then fs
                else fs.set category_path FSEntry.dir
      let linkpath := category_path ++ "/" ++ basename logdir
      if (fs.lookup linkpath).isSome then
        (fs, [Event.logWarning "Unable to link this job to category"])
      else
        (fs.set linkpath (FSEntry.symlink logdir), [])

/-- `Job.setup` (source lines 665-686): asserts the call-once precondition
(`self.tmpdir is None`), applies the dry-run results-dir tweak, prepares the
job results directory, builds the Result object, configures logging
(external), links the category, and allocates the temporary directories —
`tmpdir` is assigned last, so a completed `setup` is exactly a job with
`tmpdir ≠ none`. -/
def Job.setup (j : Job) (env : SetupEnv) (fs : FS) :
    Except JobError (Job × FS × List Event) :=
  if j.tmpdir ≠ none then .error (JobError.assertionFailed "Job.setup() already called")
  else
    let j :=
      if j.config.dry_run_enabled ∧ j.config.results_dir = none then
        { j with config := { j.config with results_dir := some env.dry_run_tmp } }
      else j
    match j.setup_job_results env fs with
    | .error e => .error e
    | .ok (j, fs, ev) =>
      let j := { j with result := some 0 }
      let cat := j.setup_job_category fs
      let j :=
        if j.config.keep_tmp then { j with base_tmpdir := j.logdir }
        else { j with base_tmpdir := some env.base_tmp, keep_tmpdir := false }
      let j := { j with tmpdir := some env.job_tmp }
      .ok (j, cat.1, ev ++ cat.2)

/-- How the guarded region of `Job.run` (the `try` block: results count,
pre dispatcher, `pre_tests()`, `run_tests()`) terminates: normally, or by
raising one of the exception classes distinguished by the `except`
clauses.  Modelled from the spec where the exception classes themselves
are external: `JobBaseException` is a "recognized job-level failure ...
carrying an explicit terminal status" (carried here as the `st` field);
`OptionValidationError` is "an option/validation error"; `raiseOther` is
any unrecognized failure. -/
inductive GuardedBehavior
  | normal
  | raiseJobBase (st : String)
  | raiseOptValidation
  | raiseOther
deriving DecidableEq

/-- Environment oracle for `Job.run`: the guarded region's termination mode
and the two `time.monotonic()` samples. -/
structure RunEnv where
  guarded : GuardedBehavior
  clock_start : Int
  clock_end : Int
deriving DecidableEq

/-- Source lines 580-581: `time_start` is sampled only if still at the
`-1` sentinel. -/
def Job.mark_time_start (j : Job) (env : RunEnv) : Job :=
  if j.time_start = -1 then { j with time_start := env.clock_start } else j

/-- The `finally` block of `Job.run` (source lines 614-620): run the
post-test hooks, capture `time_end`/`time_elapsed` if not already set,
render the results, and invoke the post-job dispatcher. -/
def Job.run_finally (j : Job) (env : RunEnv) : Job × List Event :=
  let j :=
    if j.time_end = -1 then
      { j with time_end := env.clock_end, time_elapsed := env.clock_end - j.time_start }
    else j
  (j, [Event.postTests, Event.renderResults, Event.postDispatch])

/-- `Job.run_tests` (source lines 622-652): log debug info and job data,
log an error when the job resolved zero tests, fail the job when no suites
are attached, otherwise run every suite, union the outcome tags, promote a
still-`RUNNING` status to `PASS`, and fold the INTERRUPTED / TESTS_FAIL
bits into the exit code. -/
def Job.run_tests (j : Job) : Job × Nat × List Event :=
  let ev := [Event.logJobDebugInfo, Event.jobdataRecord]
  let ev := if j.size = 0 then ev ++ [Event.logErrorUnableToResolve] else ev
  if j.test_suites = [] then
    let j := { j with exitcode := j.exitcode ||| AVOCADO_JOB_FAIL }
    (j, j.exitcode, ev)
  else
    let summary := j.summary
    let j := if j.status = "RUNNING" then { j with status := "PASS" } else j
    let j := if OutcomeTag.INTERRUPTED ∈ summary then
               { j with exitcode := j.exitcode ||| AVOCADO_JOB_INTERRUPTED } else j
    let j := if OutcomeTag.FAIL ∈ summary ∨ OutcomeTag.ERROR ∈ summary then
               { j with exitcode := j.exitcode ||| AVOCADO_TESTS_FAIL } else j
    (j, j.exitcode, ev ++ [Event.logTestResultsAvailable])

/-- `Job.run` (source lines 569-620): assert that `setup()` completed,
sample `time_start` once, then run the guarded region under the failure
isolation wrapper.  A `JobBaseException` sets `status` from the exception
and ORs JOB_FAIL; an `OptionValidationError` ORs JOB_FAIL leaving `status`
alone; an unrecognized failure sets `status` to `"ERROR"` and ORs the
CRASH bit.  The `finally` block (`run_finally`) executes on every path.
When `self.result` is still `None`, the first guarded statement raises
before the dispatcher local is bound, and the `finally` block then fails
on that unbound local (`pre_post_dispatcher`) after the post-test hooks
and the renderer have run. -/
def Job.run (j : Job) (env : RunEnv) : Except JobError (Job × Nat × List Event) :=
  if j.tmpdir = none then .error (JobError.assertionFailed "Job.setup() not called")
  else
    let j := j.mark_time_start env
    match j.result with
    | none => .error JobError.unboundLocalInFinally
    | some _ =>
      let j := { j with result := some j.size }
      match env.guarded with
      | GuardedBehavior.normal =>
        let r := j.run_tests
        let f := r.1.run_finally env
        .ok (f.1, r.2.1, [Event.preDispatch, Event.preTests] ++ r.2.2 ++ f.2)
      | GuardedBehavior.raiseJobBase st =>
        let j := { j with status := st, exitcode := j.exitcode ||| AVOCADO_JOB_FAIL }
        let f := j.run_finally env
        .ok (f.1, j.exitcode, [Event.logErrorJobFailed] ++ f.2)
      | GuardedBehavior.raiseOptValidation =>
        let j := { j with exitcode := j.exitcode ||| AVOCADO_JOB_FAIL }
        let f := j.run_finally env
        .ok (f.1, j.exitcode, [Event.logErrorOptionValidation] ++ f.2)
      | GuardedBehavior.raiseOther =>
        let j := { j with status := "ERROR", exitcode := j.exitcode ||| AVOCADO_FAIL }
        let f := j.run_finally env
        .ok (f.1, j.exitcode, [Event.logErrorCrashed] ++ f.2)

/-! ### Projection helpers over run/setup results -/

def exceptIsOk {ε α : Type} (r : Except ε α) : Bool :=
  match r with
  | .ok _ => true
  | .error _ => false

def runJobOr (r : Except JobError (Job × Nat × List Event)) (d : Job) : Job :=
  match r with
  | .ok (j, _, _) => j
  | .error _ => d

def runCodeOr (r : Except JobError (Job × Nat × List Event)) (d : Nat) : Nat :=
  match r with
  | .ok (_, c, _) => c
  | .error _ => d

def runEventsOr (r : Except JobError (Job × Nat × List Event)) : List Event :=
  match r with
  | .ok (_, _, e) => e
  | .error _ => []

def setupJobOr (r : Except JobError (Job × FS × List Event)) (d : Job) : Job :=
  match r with
  | .ok (j, _, _) => j
  | .error _ => d

def setupFSOr (r : Except JobError (Job × FS × List Event)) (d : FS) : FS :=
  match r with
  | .ok (_, f, _) => f
  | .error _ => d

def setupEventsOr (r : Except JobError (Job × FS × List Event)) : List Event :=
  match r with
  | .ok (_, _, e) => e
  | .error _ => []

/-! ### Bitwise-OR algebra for the exit code -/

theorem or_self_or (a b : Nat) : a ||| (a ||| b) = a ||| b := by
  rw [← Nat.or_assoc, Nat.or_self]

theorem or_absorb_step (f a c : Nat) (h : f ||| a = a) : f ||| (a ||| c) = a ||| c := by
  rw [← Nat.or_assoc, h]

theorem or_flag_right (a b : Nat) : b ||| (a ||| b) = a ||| b := by
  rw [Nat.or_comm b, Nat.or_assoc, Nat.or_self]

/-! ### Field-preservation lemmas for the run phases -/

@[simp] theorem mark_time_start_config (j : Job) (env : RunEnv) :
    (j.mark_time_start env).config = j.config := by
  unfold Job.mark_time_start; split <;> rfl

@[simp] theorem mark_time_start_suites (j : Job) (env : RunEnv) :
    (j.mark_time_start env).test_suites = j.test_suites := by
  unfold Job.mark_time_start; split <;> rfl

@[simp] theorem mark_time_start_tmpdir (j : Job) (env : RunEnv) :
    (j.mark_time_start env).tmpdir = j.tmpdir := by
  unfold Job.mark_time_start; split <;> rfl

@[simp] theorem mark_time_start_status (j : Job) (env : RunEnv) :
    (j.mark_time_start env).status = j.status := by
  unfold Job.mark_time_start; split <;> rfl

@[simp] theorem mark_time_start_result (j : Job) (env : RunEnv) :
    (j.mark_time_start env).result = j.result := by
  unfold Job.mark_time_start; split <;> rfl

@[simp] theorem mark_time_start_exitcode (j : Job) (env : RunEnv) :
    (j.mark_time_start env).exitcode = j.exitcode := by
  unfold Job.mark_time_start; split <;> rfl

@[simp] theorem mark_time_start_time_end (j : Job) (env : RunEnv) :
    (j.mark_time_start env).time_end = j.time_end := by
  unfold Job.mark_time_start; split <;> rfl

@[simp] theorem mark_time_start_time_elapsed (j : Job) (env : RunEnv) :
    (j.mark_time_start env).time_elapsed = j.time_elapsed := by
  unfold Job.mark_time_start; split <;> rfl

theorem mark_time_start_time_start (j : Job) (env : RunEnv) :
    (j.mark_time_start env).time_start =
      if j.time_start = -1 then env.clock_start else j.time_start := by
  unfold Job.mark_time_start; split <;> rfl

@[simp] theorem run_finally_status (j : Job) (env : RunEnv) :
    (j.run_finally env).1.status = j.status := by
  unfold Job.run_finally; split <;> rfl

@[simp] theorem run_finally_exitcode (j : Job) (env : RunEnv) :
    (j.run_finally env).1.exitcode = j.exitcode := by
  unfold Job.run_finally; split <;> rfl

@[simp] theorem run_finally_time_start (j : Job) (env : RunEnv) :
    (j.run_finally env).1.time_start = j.time_start := by
  unfold Job.run_finally; split <;> rfl

@[simp] theorem run_finally_events (j : Job) (env : RunEnv) :
    (j.run_finally env).2 = [Event.postTests, Event.renderResults, Event.postDispatch] := by
  unfold Job.run_finally; split <;> rfl

theorem run_finally_time_end (j : Job) (env : RunEnv) :
    (j.run_finally env).1.time_end =
      if j.time_end = -1 then env.clock_end else j.time_end := by
  unfold Job.run_finally; split <;> rfl

theorem run_finally_time_elapsed (j : Job) (env : RunEnv) :
    (j.run_finally env).1.time_elapsed =
      if j.time_end = -1 then env.clock_end - j.time_start else j.time_elapsed := by
  unfold Job.run_finally; split <;> rfl

theorem run_tests_code_eq (j : Job) : (j.run_tests).2.1 = (j.run_tests).1.exitcode := by
  unfold Job.run_tests
  split <;> split <;> rfl

theorem run_tests_empty (j : Job) (h : j.test_suites = []) :
    j.run_tests = ({ j with exitcode := j.exitcode ||| AVOCADO_JOB_FAIL },
                   j.exitcode ||| AVOCADO_JOB_FAIL,
                   if j.size = 0 then
                     [Event.logJobDebugInfo, Event.jobdataRecord, Event.logErrorUnableToResolve]
                   else [Event.logJobDebugInfo, Event.jobdataRecord]) := by
  unfold Job.run_tests
  split <;> rfl

theorem run_tests_fst (j : Job) (h : j.test_suites ≠ []) :
    (j.run_tests).1 =
      (let j1 := if j.status = "RUNNING" then { j with status := "PASS" } else j
       let j2 := if OutcomeTag.INTERRUPTED ∈ j.summary then
                   { j1 with exitcode := j1.exitcode ||| AVOCADO_JOB_INTERRUPTED } else j1
       if OutcomeTag.FAIL ∈ j.summary ∨ OutcomeTag.ERROR ∈ j.summary then
         { j2 with exitcode := j2.exitcode ||| AVOCADO_TESTS_FAIL } else j2) := by
  unfold Job.run_tests
  split <;> rfl

theorem run_tests_status (j : Job) (h : j.test_suites ≠ []) :
    (j.run_tests).1.status = if j.status = "RUNNING" then "PASS" else j.status := by
  rw [run_tests_fst j h]
  by_cases h8 : OutcomeTag.INTERRUPTED ∈ j.summary <;>
    by_cases h1 : OutcomeTag.FAIL ∈ j.summary ∨ OutcomeTag.ERROR ∈ j.summary <;>
      by_cases hs : j.status = "RUNNING" <;> simp [h8, h1, hs]

theorem run_tests_exitcode (j : Job) (h : j.test_suites ≠ []) :
    (j.run_tests).1.exitcode =
      (if OutcomeTag.FAIL ∈ j.summary ∨ OutcomeTag.ERROR ∈ j.summary then
        (if OutcomeTag.INTERRUPTED ∈ j.summary then
          j.exitcode ||| AVOCADO_JOB_INTERRUPTED else j.exitcode) ||| AVOCADO_TESTS_FAIL
       else
        (if OutcomeTag.INTERRUPTED ∈ j.summary then
          j.exitcode ||| AVOCADO_JOB_INTERRUPTED else j.exitcode)) := by
  rw [run_tests_fst j h]
  by_cases h8 : OutcomeTag.INTERRUPTED ∈ j.summary <;>
    by_cases h1 : OutcomeTag.FAIL ∈ j.summary ∨ OutcomeTag.ERROR ∈ j.summary <;>
      by_cases hs : j.status = "RUNNING" <;> simp [h8, h1, hs]

theorem run_tests_time_end (j : Job) : (j.run_tests).1.time_end = j.time_end := by
  by_cases h : j.test_suites = []
  · rw [run_tests_empty j h]
  · rw [run_tests_fst j h]
    by_cases h8 : OutcomeTag.INTERRUPTED ∈ j.summary <;>
      by_cases h1 : OutcomeTag.FAIL ∈ j.summary ∨ OutcomeTag.ERROR ∈ j.summary <;>
        by_cases hs : j.status = "RUNNING" <;> simp [h8, h1, hs]

theorem run_tests_time_start (j : Job) : (j.run_tests).1.time_start = j.time_start := by
  by_cases h : j.test_suites = []
  · rw [run_tests_empty j h]
  · rw [run_tests_fst j h]
    by_cases h8 : OutcomeTag.INTERRUPTED ∈ j.summary <;>
      by_cases h1 : OutcomeTag.FAIL ∈ j.summary ∨ OutcomeTag.ERROR ∈ j.summary <;>
        by_cases hs : j.status = "RUNNING" <;> simp [h8, h1, hs]

theorem run_tests_time_elapsed (j : Job) : (j.run_tests).1.time_elapsed = j.time_elapsed := by
  by_cases h : j.test_suites = []
  · rw [run_tests_empty j h]
  · rw [run_tests_fst j h]
    by_cases h8 : OutcomeTag.INTERRUPTED ∈ j.summary <;>
      by_cases h1 : OutcomeTag.FAIL ∈ j.summary ∨ OutcomeTag.ERROR ∈ j.summary <;>
        by_cases hs : j.status = "RUNNING" <;> simp [h8, h1, hs]

/-! ### Sample configurations, suites, jobs and environments -/

def cfg0 : Config :=
  { dry_run_enabled := false, results_dir := none, unique_job_id := none,
    keep_tmp := false, job_category := none }

def suitePass : TestSuite := { name := "s1", size := 2, outcome := {OutcomeTag.PASS} }

def suiteFail : TestSuite := { name := "s2", size := 1, outcome := {OutcomeTag.FAIL} }

def suiteInterrupted : TestSuite :=
  { name := "s3", size := 1, outcome := {OutcomeTag.INTERRUPTED} }

def suiteZero : TestSuite := { name := "s0", size := 0, outcome := (∅ : Finset OutcomeTag) }

/-- A job as it stands right after a successful `setup()`: directories
allocated, `result` built, `status` still `RUNNING`, exit code all-OK. -/
def readyJob (suites : List TestSuite) : Job :=
  { config := cfg0, test_suites := suites, logdir := some "base/job-1",
    logfile := some "base/job-1/job.log", tmpdir := some "tmpbase/avocado_job_x",
    keep_tmpdir := false, base_tmpdir := some "tmpbase", status := "RUNNING",
    result := some 0, time_start := -1, time_end := -1, time_elapsed := -1,
    unique_id := "c4dc", exitcode := AVOCADO_ALL_OK }

/-- A job as the constructor produced it (no `setup()` yet). -/
def freshJob (suites : List TestSuite) : Job :=
  match Job.init cfg0 "c4dc" suites with
  | .ok j => j
  | .error _ => readyJob suites

def envNormal : RunEnv :=
  { guarded := GuardedBehavior.normal, clock_start := 100, clock_end := 250 }

def envJobBase : RunEnv :=
  { guarded := GuardedBehavior.raiseJobBase "FAIL", clock_start := 100, clock_end := 250 }

def envOptVal : RunEnv :=
  { guarded := GuardedBehavior.raiseOptValidation, clock_start := 100, clock_end := 250 }

def envCrash : RunEnv :=
  { guarded := GuardedBehavior.raiseOther, clock_start := 100, clock_end := 250 }

def osEnvOk : OSEnv :=
  { unlink_stale_raises := false, symlink_raises := false, rename_raises := false,
    cleanup_unlink_raises := false }

def setupEnv0 : SetupEnv :=
  { created_logdir := "base/job-1", pid := 7, os_env := osEnvOk,
    dry_run_tmp := "drytmp", base_tmp := "tmpbase", job_tmp := "tmpbase/avocado_job_x" }

def fsEmpty : FS := ⟨[]⟩

example :
    runCodeOr ((readyJob [suitePass, suiteFail]).run envNormal) 99 = AVOCADO_TESTS_FAIL := by
  decide

example :
    (runJobOr ((readyJob [suitePass, suiteFail]).run envNormal) (readyJob [])).status =
      "PASS" := by
  decide

/-! ### C1 -/

/-- C1: for every job on which `setup()` has completed (`tmpdir` and
`result` allocated), `run()` always returns (never raises), its trace
always contains the post-test hooks and the result rendering, the final
timestamp is captured on every path, and when the guarded region raised an
unrecognized failure the status ends up `"ERROR"` with the CRASH bit
(`AVOCADO_FAIL`) OR-ed into the exit code. -/
theorem run_always_runs_post_and_render (j : Job) (env : RunEnv)
    (htd : j.tmpdir ≠ none) (hres : j.result ≠ none) :
    ∃ j2 code ev, j.run env = .ok (j2, code, ev) ∧
      Event.postTests ∈ ev ∧ Event.renderResults ∈ ev ∧
      (j.time_end = -1 → j2.time_end = env.clock_end) ∧
      (env.guarded = GuardedBehavior.raiseOther →
        j2.status = "ERROR" ∧ j2.exitcode = j.exitcode ||| AVOCADO_FAIL) := by
  obtain ⟨td, htd2⟩ := Option.ne_none_iff_exists'.mp htd
  obtain ⟨n, hres2⟩ := Option.ne_none_iff_exists'.mp hres
  unfold Job.run
  rw [if_neg (by simp [htd2])]
  simp only [mark_time_start_result, hres2]
  cases hg : env.guarded with
  | normal =>
    refine ⟨_, _, _, rfl, by simp, by simp, ?_, by simp [hg]⟩
    intro he
    rw [run_finally_time_end, run_tests_time_end]
    simp [he]
  | raiseJobBase st =>
    refine ⟨_, _, _, rfl, by simp, by simp, ?_, by simp [hg]⟩
    intro he
    rw [run_finally_time_end]
    simp [he]
  | raiseOptValidation =>
    refine ⟨_, _, _, rfl, by simp, by simp, ?_, by simp [hg]⟩
    intro he
    rw [run_finally_time_end]
    simp [he]
  | raiseOther =>
    refine ⟨_, _, _, rfl, by simp, by simp, ?_, by simp [hg]⟩
    intro he
    rw [run_finally_time_end]
    simp [he]

/-- Witness for C1 at a concrete set-up job and a crashing guarded region. -/
theorem run_always_runs_post_and_render_witness :
    (readyJob [suitePass]).tmpdir ≠ none ∧ (readyJob [suitePass]).result ≠ none ∧
    (∃ j2 code ev, (readyJob [suitePass]).run envCrash = .ok (j2, code, ev) ∧
      Event.postTests ∈ ev ∧ Event.renderResults ∈ ev ∧
      ((readyJob [suitePass]).time_end = -1 → j2.time_end = envCrash.clock_end) ∧
      (envCrash.guarded = GuardedBehavior.raiseOther →
        j2.status = "ERROR" ∧
        j2.exitcode = (readyJob [suitePass]).exitcode ||| AVOCADO_FAIL)) :=
  ⟨by decide, by decide,
   run_always_runs_post_and_render (readyJob [suitePass]) envCrash (by decide) (by decide)⟩

/-! ### Shape lemmas: `Job.run` on a set-up job, one per guarded outcome -/

theorem run_normal (j : Job) (env : RunEnv) (td : String) (n : Nat)
    (htd2 : j.tmpdir = some td) (hres2 : j.result = some n)
    (hg : env.guarded = GuardedBehavior.normal) :
    j.run env =
      .ok (((({ j.mark_time_start env with
                result := some (j.mark_time_start env).size }).run_tests).1.run_finally env).1,
           (({ j.mark_time_start env with
               result := some (j.mark_time_start env).size }).run_tests).2.1,
           [Event.preDispatch, Event.preTests] ++
             (({ j.mark_time_start env with
                 result := some (j.mark_time_start env).size }).run_tests).2.2 ++
             [Event.postTests, Event.renderResults, Event.postDispatch]) := by
  unfold Job.run
  rw [if_neg (by simp [htd2])]
  simp only [mark_time_start_result, hres2, hg, run_finally_events]

theorem run_jobbase (j : Job) (env : RunEnv) (td : String) (n : Nat) (st : String)
    (htd2 : j.tmpdir = some td) (hres2 : j.result = some n)
    (hg : env.guarded = GuardedBehavior.raiseJobBase st) :
    j.run env =
      .ok ((({ j.mark_time_start env with
               result := some (j.mark_time_start env).size, status := st,
               exitcode := (j.mark_time_start env).exitcode ||| AVOCADO_JOB_FAIL
             }).run_finally env).1,
           (j.mark_time_start env).exitcode ||| AVOCADO_JOB_FAIL,
           [Event.logErrorJobFailed] ++
             [Event.postTests, Event.renderResults, Event.postDispatch]) := by
  unfold Job.run
  rw [if_neg (by simp [htd2])]
  simp only [mark_time_start_result, hres2, hg, run_finally_events]

theorem run_optval (j : Job) (env : RunEnv) (td : String) (n : Nat)
    (htd2 : j.tmpdir = some td) (hres2 : j.result = some n)
    (hg : env.guarded = GuardedBehavior.raiseOptValidation) :
    j.run env =
      .ok ((({ j.mark_time_start env with
               result := some (j.mark_time_start env).size,
               exitcode := (j.mark_time_start env).exitcode ||| AVOCADO_JOB_FAIL
             }).run_finally env).1,
           (j.mark_time_start env).exitcode ||| AVOCADO_JOB_FAIL,
           [Event.logErrorOptionValidation] ++
             [Event.postTests, Event.renderResults, Event.postDispatch]) := by
  unfold Job.run
  rw [if_neg (by simp [htd2])]
  simp only [mark_time_start_result, hres2, hg, run_finally_events]

theorem run_other (j : Job) (env : RunEnv) (td : String) (n : Nat)
    (htd2 : j.tmpdir = some td) (hres2 : j.result = some n)
    (hg : env.guarded = GuardedBehavior.raiseOther) :
    j.run env =
      .ok ((({ j.mark_time_start env with
               result := some (j.mark_time_start env).size, status := "ERROR",
               exitcode := (j.mark_time_start env).exitcode ||| AVOCADO_FAIL
             }).run_finally env).1,
           (j.mark_time_start env).exitcode ||| AVOCADO_FAIL,
           [Event.logErrorCrashed] ++
             [Event.postTests, Event.renderResults, Event.postDispatch]) := by
  unfold Job.run
  rw [if_neg (by simp [htd2])]
  simp only [mark_time_start_result, hres2, hg, run_finally_events]

/-! ### Exit-code monotonicity helpers -/

theorem run_tests_exitcode_mono (j : Job) :
    j.exitcode ||| (j.run_tests).1.exitcode = (j.run_tests).1.exitcode := by
  by_cases h : j.test_suites = []
  · rw [run_tests_empty j h]
    exact or_self_or _ _
  · rw [run_tests_exitcode j h]
    by_cases h8 : OutcomeTag.INTERRUPTED ∈ j.summary <;>
      by_cases h1 : OutcomeTag.FAIL ∈ j.summary ∨ OutcomeTag.ERROR ∈ j.summary <;>
        simp only [h8, h1, if_pos, if_neg, if_true, if_false]
    · exact or_absorb_step _ _ _ (or_self_or _ _)
    · exact or_self_or _ _
    · exact or_self_or _ _
    · exact Nat.or_self _

theorem run_ok_exitcode_mono (j : Job) (env : RunEnv) (j2 : Job) (code : Nat)
    (ev : List Event) (h : j.run env = .ok (j2, code, ev)) :
    j.exitcode ||| j2.exitcode = j2.exitcode ∧ code = j2.exitcode := by
  by_cases htd : j.tmpdir = none
  · unfold Job.run at h
    rw [if_pos htd] at h
    cases h
  · obtain ⟨td, htd2⟩ := Option.ne_none_iff_exists'.mp htd
    by_cases hres : j.result = none
    · unfold Job.run at h
      rw [if_neg (by simp [htd2])] at h
      simp only [mark_time_start_result, hres] at h
      cases h
    · obtain ⟨n, hres2⟩ := Option.ne_none_iff_exists'.mp hres
      cases hg : env.guarded with
      | normal =>
        rw [run_normal j env td n htd2 hres2 hg] at h
        obtain ⟨h2, hc, -⟩ := by simpa using h
        subst h2
        rw [run_finally_exitcode]
        rw [run_tests_code_eq] at hc
        refine ⟨?_, hc.symm⟩
        have hm := run_tests_exitcode_mono
          { j.mark_time_start env with result := some (j.mark_time_start env).size }
        simpa using hm
      | raiseJobBase st =>
        rw [run_jobbase j env td n st htd2 hres2 hg] at h
        obtain ⟨h2, hc, -⟩ := by simpa using h
        subst h2
        rw [run_finally_exitcode]
        refine ⟨?_, ?_⟩
        · exact or_self_or _ _
        · exact hc.symm
      | raiseOptValidation =>
        rw [run_optval j env td n htd2 hres2 hg] at h
        obtain ⟨h2, hc, -⟩ := by simpa using h
        subst h2
        rw [run_finally_exitcode]
        refine ⟨?_, ?_⟩
        · exact or_self_or _ _
        · exact hc.symm
      | raiseOther =>
        rw [run_other j env td n htd2 hres2 hg] at h
        obtain ⟨h2, hc, -⟩ := by simpa using h
        subst h2
        rw [run_finally_exitcode]
        refine ⟨?_, ?_⟩
        · exact or_self_or _ _
        · exact hc.symm

theorem init_ok_fields (cfg : Config) (gid : String) (suites : List TestSuite)
    (j0 : Job) (h : Job.init cfg gid suites = .ok j0) :
    j0.exitcode = AVOCADO_ALL_OK ∧ j0.logdir = none ∧ j0.logfile = none ∧
    j0.tmpdir = none ∧ j0.status = "RUNNING" ∧ j0.test_suites = suites := by
  unfold Job.init at h
  split at h <;> split at h <;>
    first
      | (obtain rfl := Except.ok.inj h; exact ⟨rfl, rfl, rfl, rfl, rfl, rfl⟩)
      | cases h

/-! ### Setup shape lemmas -/

theorem update_latest_link_method_ok (j : Job) (fs : FS) (env : OSEnv) (pid : Nat)
    (j2 : Job) (fs2 : FS) (w : List String)
    (h : j.update_latest_link_method fs env pid = .ok (j2, fs2, w)) : j2 = j := by
  unfold Job.update_latest_link_method at h
  split at h
  · cases h
  · obtain ⟨h1, -, -⟩ := by simpa using h
    exact h1.symm

theorem setup_job_results_ok (j : Job) (env : SetupEnv) (fs : FS) (j2 : Job) (fs2 : FS)
    (ev : List Event) (h : j.setup_job_results env fs = .ok (j2, fs2, ev)) :
    j2 = { j with logdir := some env.created_logdir,
                  logfile := some (env.created_logdir ++ "/job.log") } ∧
    ∃ (fsmid : FS) (warns : List String),
      fs2 = FS.set fsmid (env.created_logdir ++ "/id") (FSEntry.file (j.unique_id ++ "\n")) ∧
      ev = List.map Event.logWarning warns ++
           [Event.idFileWrite, Event.idFileFlush, Event.idFileFsync] := by
  unfold Job.setup_job_results at h
  dsimp only at h
  split at h
  · cases h
  next jn fsn warns heq =>
    obtain ⟨h1, h2, h3⟩ := by simpa using h
    have hjn : jn = { j with logdir := some env.created_logdir } := by
      by_cases hd : j.config.dry_run_enabled
      · simp only [hd, not_true_eq_false, if_false] at heq
        obtain ⟨ha, -, -⟩ := by simpa using heq
        exact ha.symm
      · simp only [hd, not_false_eq_true, if_true] at heq
        exact update_latest_link_method_ok _ _ _ _ _ _ _ heq
    subst hjn
    refine ⟨h1.symm, fsn, warns, h2.symm, h3.symm⟩

theorem FS.lookup_set_self (fs : FS) (p : String) (e : FSEntry) :
    (fs.set p e).lookup p = some e := by
  simp [FS.set, FS.lookup]

theorem FS.lookup_set_ne (fs : FS) (p q : String) (e : FSEntry) (h : p ≠ q) :
    (fs.set p e).lookup q = fs.lookup q := by
  have hb : (p == q) = false := by simpa using h
  simp [FS.set, FS.lookup, List.find?_cons, hb]

/-- The category bookkeeping never disturbs an existing entry: both its
`os.mkdir` and its `os.symlink` are no-ops (pass / warning) when their
target path already holds one, and otherwise write to a path that held
nothing. -/
theorem setup_job_category_preserves (j : Job) (fs : FS) (q : String) (e : FSEntry)
    (h : fs.lookup q = some e) : (j.setup_job_category fs).1.lookup q = some e := by
  unfold Job.setup_job_category
  cases hcat : j.config.job_category with
  | none => exact h
  | some category =>
    dsimp only
    by_cases hsafe : category ≠ string_to_safe_path category
    · rw [if_pos hsafe]
      exact h
    · rw [if_neg hsafe]
      set cp := dirname (j.logdir.getD "") ++ "/" ++ category with hcp
      set fs1 : FS := if (fs.lookup cp).isSome then fs else fs.set cp FSEntry.dir
        with hfs1
      have h1 : fs1.lookup q = some e := by
        rw [hfs1]
        by_cases hp : (fs.lookup cp).isSome
        · rw [if_pos hp]
          exact h
        · rw [if_neg hp]
          have hne : cp ≠ q := by
            intro hpq
            rw [hpq, h] at hp
            simp at hp
          rw [FS.lookup_set_ne fs cp q FSEntry.dir hne]
          exact h
      by_cases hl : (fs1.lookup (cp ++ "/" ++ basename (j.logdir.getD ""))).isSome
      · rw [if_pos hl]
        exact h1
      · rw [if_neg hl]
        have hne : cp ++ "/" ++ basename (j.logdir.getD "") ≠ q := by
          intro hpq
          rw [hpq, h1] at hl
          simp at hl
        dsimp only
        rw [FS.lookup_set_ne fs1 _ q _ hne]
        exact h1

theorem setup_ok (j : Job) (env : SetupEnv) (fs : FS) (j2 : Job) (fs2 : FS)
    (ev : List Event) (h : j.setup env fs = .ok (j2, fs2, ev)) :
    j2.tmpdir = some env.job_tmp ∧ j2.result = some 0 ∧
    j2.exitcode = j.exitcode ∧ j2.status = j.status ∧
    j2.unique_id = j.unique_id ∧ j2.logdir = some env.created_logdir ∧
    j2.test_suites = j.test_suites ∧ j2.time_start = j.time_start ∧
    j2.time_end = j.time_end ∧
    (∃ pre post,
      ev = pre ++ [Event.idFileWrite, Event.idFileFlush, Event.idFileFsync] ++ post) ∧
    (fs2.lookup (env.created_logdir ++ "/id") =
      some (FSEntry.file (j.unique_id ++ "\n"))) := by
  unfold Job.setup at h
  dsimp only at h
  split at h
  · cases h
  by_cases hdry : j.config.dry_run_enabled = true ∧ j.config.results_dir = none <;>
    [rw [if_pos hdry] at h; rw [if_neg hdry] at h] <;>
  · split at h
    · cases h
    next ja fsa eva heq =>
      obtain ⟨hja, fsmid, warns, hfsa, heva⟩ :=
        setup_job_results_ok _ env fs ja fsa eva heq
      subst hja hfsa heva
      obtain ⟨h1, h2, h3⟩ := by simpa using h
      subst h1 h2 h3
      refine ⟨?_, ?_, ?_, ?_, ?_, ?_, ?_, ?_, ?_, ?_, ?_⟩
      · by_cases hk : j.config.keep_tmp = true <;> simp [hk]
      · by_cases hk : j.config.keep_tmp = true <;> simp [hk]
      · by_cases hk : j.config.keep_tmp = true <;> simp [hk]
      · by_cases hk : j.config.keep_tmp = true <;> simp [hk]
      · by_cases hk : j.config.keep_tmp = true <;> simp [hk]
      · by_cases hk : j.config.keep_tmp = true <;> simp [hk]
      · by_cases hk : j.config.keep_tmp = true <;> simp [hk]
      · by_cases hk : j.config.keep_tmp = true <;> simp [hk]
      · by_cases hk : j.config.keep_tmp = true <;> simp [hk]
      · exact ⟨List.map Event.logWarning warns, _, by rw [List.append_assoc]; rfl⟩
      · exact setup_job_category_preserves _ _ _ _
          (FS.lookup_set_self fsmid (env.created_logdir ++ "/id") _)

/-! ### C2 -/

/-- C2 counterexample: a set-up job with one attached suite that resolved
zero tests.  The claim says `run()` must return with the JOB_FAIL bit set;
the code merely logs an error for the zero-tests condition and returns exit
code 0 (all-OK), so the JOB_FAIL bit is not set. -/
theorem zero_resolved_tests_without_job_fail :
    (readyJob [suiteZero]).size = 0 ∧
    (readyJob [suiteZero]).test_suites ≠ [] ∧
    exceptIsOk ((readyJob [suiteZero]).run envNormal) = true ∧
    runCodeOr ((readyJob [suiteZero]).run envNormal) 99 = 0 ∧
    0 &&& AVOCADO_JOB_FAIL = 0 := by decide

/-- C2 (amended): for every set-up job with *no suites attached*, a normal
`run()` returns with the JOB_FAIL bit OR-ed into the exit code and, when the
exit code started all-OK, with no suite-outcome bits (TESTS_FAIL,
INTERRUPTED) set.  (A job with suites attached but zero resolved tests only
logs an error; JOB_FAIL is not set — see the counterexample.) -/
theorem no_suites_sets_job_fail (j : Job) (env : RunEnv)
    (htd : j.tmpdir ≠ none) (hres : j.result ≠ none)
    (hs : j.test_suites = []) (hg : env.guarded = GuardedBehavior.normal) :
    ∃ j2 code ev, j.run env = .ok (j2, code, ev) ∧
      code = j.exitcode ||| AVOCADO_JOB_FAIL ∧
      j2.exitcode = j.exitcode ||| AVOCADO_JOB_FAIL ∧
      (j.exitcode = AVOCADO_ALL_OK →
        (j.exitcode ||| AVOCADO_JOB_FAIL) &&& AVOCADO_TESTS_FAIL = 0 ∧
        (j.exitcode ||| AVOCADO_JOB_FAIL) &&& AVOCADO_JOB_INTERRUPTED = 0 ∧
        (j.exitcode ||| AVOCADO_JOB_FAIL) &&& AVOCADO_JOB_FAIL ≠ 0) := by
  obtain ⟨td, htd2⟩ := Option.ne_none_iff_exists'.mp htd
  obtain ⟨n, hres2⟩ := Option.ne_none_iff_exists'.mp hres
  rw [run_normal j env td n htd2 hres2 hg]
  rw [run_tests_empty { j.mark_time_start env with
        result := some (j.mark_time_start env).size } (by simp [hs])]
  refine ⟨_, _, _, rfl, by simp, by simp, ?_⟩
  intro h0
  rw [h0]
  refine ⟨by decide, by decide, by decide⟩

/-- Witness for C2 (amended) at a concrete suite-less set-up job. -/
theorem no_suites_sets_job_fail_witness :
    (readyJob []).tmpdir ≠ none ∧ (readyJob []).result ≠ none ∧
    (readyJob []).test_suites = [] ∧ envNormal.guarded = GuardedBehavior.normal ∧
    (∃ j2 code ev, (readyJob []).run envNormal = .ok (j2, code, ev) ∧
      code = (readyJob []).exitcode ||| AVOCADO_JOB_FAIL ∧
      j2.exitcode = (readyJob []).exitcode ||| AVOCADO_JOB_FAIL ∧
      ((readyJob []).exitcode = AVOCADO_ALL_OK →
        ((readyJob []).exitcode ||| AVOCADO_JOB_FAIL) &&& AVOCADO_TESTS_FAIL = 0 ∧
        ((readyJob []).exitcode ||| AVOCADO_JOB_FAIL) &&& AVOCADO_JOB_INTERRUPTED = 0 ∧
        ((readyJob []).exitcode ||| AVOCADO_JOB_FAIL) &&& AVOCADO_JOB_FAIL ≠ 0)) :=
  ⟨by decide, by decide, by decide, by decide,
   no_suites_sets_job_fail (readyJob []) envNormal
     (by decide) (by decide) (by decide) (by decide)⟩

/-! ### C3 -/

/-- C3: for every job whose suites all complete (a non-empty suite list,
`run_tests` reaching the aggregation), the status is promoted to `"PASS"`
exactly when it was still `"RUNNING"` (a terminal status set earlier is
never overwritten back); a summary containing FAIL or ERROR ORs the
TESTS_FAIL bit into the exit code while the status is still promoted to
`"PASS"`; a summary containing INTERRUPTED ORs the INTERRUPTED bit
likewise — status and exit code are independent signals. -/
theorem suites_complete_status_and_bits (j : Job) (h : j.test_suites ≠ []) :
    ((j.run_tests).1.status = "PASS" ↔ (j.status = "RUNNING" ∨ j.status = "PASS")) ∧
    (j.status ≠ "RUNNING" → (j.run_tests).1.status = j.status) ∧
    ((OutcomeTag.FAIL ∈ j.summary ∨ OutcomeTag.ERROR ∈ j.summary) →
      AVOCADO_TESTS_FAIL ||| (j.run_tests).2.1 = (j.run_tests).2.1 ∧
      (j.status = "RUNNING" → (j.run_tests).1.status = "PASS")) ∧
    (OutcomeTag.INTERRUPTED ∈ j.summary →
      AVOCADO_JOB_INTERRUPTED ||| (j.run_tests).2.1 = (j.run_tests).2.1 ∧
      (j.status = "RUNNING" → (j.run_tests).1.status = "PASS")) := by
  have hst := run_tests_status j h
  have hcode := run_tests_code_eq j
  have hex := run_tests_exitcode j h
  refine ⟨?_, ?_, ?_, ?_⟩
  · rw [hst]
    by_cases hs : j.status = "RUNNING" <;> simp [hs]
  · intro hs
    rw [hst, if_neg hs]
  · intro hm
    refine ⟨?_, fun hs => by rw [hst, if_pos hs]⟩
    rw [hcode, hex, if_pos hm]
    exact or_flag_right _ _
  · intro hm
    refine ⟨?_, fun hs => by rw [hst, if_pos hs]⟩
    rw [hcode, hex]
    by_cases h1 : OutcomeTag.FAIL ∈ j.summary ∨ OutcomeTag.ERROR ∈ j.summary
    · rw [if_pos h1, if_pos hm]
      exact or_absorb_step _ _ _ (or_flag_right _ _)
    · rw [if_neg h1, if_pos hm]
      exact or_flag_right _ _

/-- Witness for C3 at a job whose two suites report PASS and FAIL. -/
theorem suites_complete_status_and_bits_witness :
    (readyJob [suitePass, suiteFail]).test_suites ≠ [] ∧
    ((((readyJob [suitePass, suiteFail]).run_tests).1.status = "PASS" ↔
       ((readyJob [suitePass, suiteFail]).status = "RUNNING" ∨
        (readyJob [suitePass, suiteFail]).status = "PASS")) ∧
     ((readyJob [suitePass, suiteFail]).status ≠ "RUNNING" →
       ((readyJob [suitePass, suiteFail]).run_tests).1.status =
         (readyJob [suitePass, suiteFail]).status) ∧
     ((OutcomeTag.FAIL ∈ (readyJob [suitePass, suiteFail]).summary ∨
       OutcomeTag.ERROR ∈ (readyJob [suitePass, suiteFail]).summary) →
       AVOCADO_TESTS_FAIL ||| ((readyJob [suitePass, suiteFail]).run_tests).2.1 =
         ((readyJob [suitePass, suiteFail]).run_tests).2.1 ∧
       ((readyJob [suitePass, suiteFail]).status = "RUNNING" →
         ((readyJob [suitePass, suiteFail]).run_tests).1.status = "PASS")) ∧
     (OutcomeTag.INTERRUPTED ∈ (readyJob [suitePass, suiteFail]).summary →
       AVOCADO_JOB_INTERRUPTED ||| ((readyJob [suitePass, suiteFail]).run_tests).2.1 =
         ((readyJob [suitePass, suiteFail]).run_tests).2.1 ∧
       ((readyJob [suitePass, suiteFail]).status = "RUNNING" →
         ((readyJob [suitePass, suiteFail]).run_tests).1.status = "PASS"))) :=
  ⟨by decide, suites_complete_status_and_bits (readyJob [suitePass, suiteFail]) (by decide)⟩

/-! ### C4 -/

/-- C4: the exit code starts at the all-OK value (zero) at construction and
is only ever modified by bitwise-OR over the whole run: every bit set
before `run_tests`/`run` is still set afterwards (the old exit code OR-ed
into the new one leaves it unchanged), the returned code is the job's
final exit code, and `setup` never touches it. -/
theorem exitcode_monotonic_bitmask (cfg : Config) (gid : String)
    (suites : List TestSuite) (j0 j : Job) (env : RunEnv) :
    (Job.init cfg gid suites = .ok j0 → j0.exitcode = AVOCADO_ALL_OK) ∧
    (j.exitcode ||| (j.run_tests).1.exitcode = (j.run_tests).1.exitcode) ∧
    (∀ j2 code ev, j.run env = .ok (j2, code, ev) →
      j.exitcode ||| j2.exitcode = j2.exitcode ∧ code = j2.exitcode) ∧
    (∀ senv fs j2 fs2 ev, j.setup senv fs = .ok (j2, fs2, ev) →
      j2.exitcode = j.exitcode) :=
  ⟨fun h => (init_ok_fields cfg gid suites j0 h).1,
   run_tests_exitcode_mono j,
   fun j2 code ev h => run_ok_exitcode_mono j env j2 code ev h,
   fun senv fs j2 fs2 ev h => (setup_ok j senv fs j2 fs2 ev h).2.2.1⟩

/-- Witness for C4 at a concrete construction, run and setup. -/
theorem exitcode_monotonic_bitmask_witness :
    (Job.init cfg0 "c4dc" [suiteFail] = .ok (freshJob [suiteFail]) →
      (freshJob [suiteFail]).exitcode = AVOCADO_ALL_OK) ∧
    ((readyJob [suiteFail]).exitcode |||
        (((readyJob [suiteFail]).run_tests).1.exitcode) =
      ((readyJob [suiteFail]).run_tests).1.exitcode) ∧
    (∀ j2 code ev, (readyJob [suiteFail]).run envNormal = .ok (j2, code, ev) →
      (readyJob [suiteFail]).exitcode ||| j2.exitcode = j2.exitcode ∧
      code = j2.exitcode) ∧
    (∀ senv fs j2 fs2 ev, (readyJob [suiteFail]).setup senv fs = .ok (j2, fs2, ev) →
      j2.exitcode = (readyJob [suiteFail]).exitcode) :=
  exitcode_monotonic_bitmask cfg0 "c4dc" [suiteFail] (freshJob [suiteFail])
    (readyJob [suiteFail]) envNormal

/-! ### C5 -/

/-- C5: for every suite list containing two suites with the same name
(the mapped name list is not duplicate-free), constructing a Job raises
`JobTestSuiteDuplicateNameError`; and the constructor allocates no
filesystem state — it takes and returns no filesystem, and any
successfully constructed job still has no results directory, no log file
and no temporary directory (those only appear in `setup()`). -/
theorem duplicate_suite_names_fail_fast (cfg : Config) (gid : String)
    (suites suites2 : List TestSuite) (j : Job)
    (hdup : ¬ (suites.map TestSuite.name).Nodup) :
    (Job.init cfg gid suites = .error (JobError.JobTestSuiteDuplicateNameError
       "Job contains suites with duplicate names")) ∧
    (Job.init cfg gid suites2 = .ok j →
      j.logdir = none ∧ j.logfile = none ∧ j.tmpdir = none) := by
  constructor
  · have hne : duplicate_names suites ≠ [] := by
      rw [List.nodup_iff_count_le_one] at hdup
      push_neg at hdup
      obtain ⟨a, ha⟩ := hdup
      have hmem : a ∈ suites.map TestSuite.name := by
        by_contra hnm
        rw [List.count_eq_zero_of_not_mem hnm] at ha
        omega
      have hfin : a ∈ duplicate_names suites := by
        show a ∈ (suites.map TestSuite.name).filter
            (fun n => (suites.map TestSuite.name).count n > 1)
        rw [List.mem_filter]
        exact ⟨hmem, by simpa using ha⟩
      exact List.ne_nil_of_mem hfin
    simp only [Job.init]
    rw [if_pos hne]
  · intro h
    obtain ⟨-, hl, hf, ht, -, -⟩ := init_ok_fields cfg gid suites2 j h
    exact ⟨hl, hf, ht⟩

/-- Witness for C5 at a suite list with a duplicated name. -/
theorem duplicate_suite_names_fail_fast_witness :
    ¬ (([suitePass, suitePass].map TestSuite.name).Nodup) ∧
    (Job.init cfg0 "c4dc" [suitePass, suitePass] =
      .error (JobError.JobTestSuiteDuplicateNameError
        "Job contains suites with duplicate names")) ∧
    (Job.init cfg0 "c4dc" [suitePass] = .ok (freshJob [suitePass]) →
      (freshJob [suitePass]).logdir = none ∧ (freshJob [suitePass]).logfile = none ∧
      (freshJob [suitePass]).tmpdir = none) :=
  ⟨by decide,
   (duplicate_suite_names_fail_fast cfg0 "c4dc" [suitePass, suitePass] [suitePass]
     (freshJob [suitePass]) (by decide)).1,
   (duplicate_suite_names_fail_fast cfg0 "c4dc" [suitePass, suitePass] [suitePass]
     (freshJob [suitePass]) (by decide)).2⟩

/-! ### C6 -/

def fsWithJobDir : FS := ⟨[("base/job-1", FSEntry.dir)]⟩

def osEnvRenameCleanupFail : OSEnv :=
  { unlink_stale_raises := false, symlink_raises := false,
    rename_raises := true, cleanup_unlink_raises := true }

def fsLatestIsFile : FS :=
  ⟨[("base/latest", FSEntry.file "oops"), ("base/job-1", FSEntry.dir)]⟩

/-- C6 counterexample: the claim says every failure inside the latest-link
update is logged and swallowed.  But when the rename raises and the
`finally` block's cleanup `os.unlink` of the staging link also raises, the
`OSError` propagates out of the update: the cleanup unlink on line 417 of
the source is not guarded by any `except`. -/
theorem latest_link_cleanup_failure_raises :
    update_latest_link fsWithJobDir osEnvRenameCleanupFail "base/job-1" 7 =
      .error OSErr.osError := by decide

/-- C6 (amended): if the well-known `latest` path exists and is not a
symlink, the update is aborted with only a warning and the filesystem is
left untouched; every failure of the stale-link removal, the staging-link
creation or the rename is swallowed provided the `finally` block's cleanup
unlink does not itself fail (if it does, the `OSError` propagates — see
the counterexample); and a completed update never changes the job's
`exitcode` or `status`. -/
theorem latest_link_soft_abort (fsa fs : FS) (enva env : OSEnv) (logdir : String)
    (pid : Nat) (j : Job)
    (hex : fsa.pathExists (dirname logdir ++ "/latest") = true)
    (hlink : fsa.isLink (dirname logdir ++ "/latest") = false)
    (hcl : env.cleanup_unlink_raises = false) :
    (update_latest_link fsa enva logdir pid =
      .ok (fsa, ["Unable to update the latest link: already exists and is not a symlink"])) ∧
    (exceptIsOk (update_latest_link fs env logdir pid) = true) ∧
    (∀ j2 fs2 w, j.update_latest_link_method fs env pid = .ok (j2, fs2, w) →
      j2.exitcode = j.exitcode ∧ j2.status = j.status) := by
  refine ⟨?_, ?_, ?_⟩
  · unfold update_latest_link
    dsimp only
    rw [if_pos (by rw [hex, hlink]; rfl)]
  · unfold update_latest_link
    dsimp only
    split_ifs <;> simp_all [exceptIsOk]
  · intro j2 fs2 w h
    have hj := update_latest_link_method_ok j fs env pid j2 fs2 w h
    subst hj
    exact ⟨rfl, rfl⟩

/-- Witness for C6 (amended): a `latest` path that is a regular file, and a
fault-free cleanup unlink. -/
theorem latest_link_soft_abort_witness :
    fsLatestIsFile.pathExists (dirname "base/job-1" ++ "/latest") = true ∧
    fsLatestIsFile.isLink (dirname "base/job-1" ++ "/latest") = false ∧
    osEnvOk.cleanup_unlink_raises = false ∧
    ((update_latest_link fsLatestIsFile osEnvRenameCleanupFail "base/job-1" 9 =
       .ok (fsLatestIsFile,
            ["Unable to update the latest link: already exists and is not a symlink"])) ∧
     (exceptIsOk (update_latest_link fsLatestIsFile osEnvOk "base/job-1" 9) = true) ∧
     (∀ j2 fs2 w,
        (readyJob []).update_latest_link_method fsLatestIsFile osEnvOk 9 =
          .ok (j2, fs2, w) →
        j2.exitcode = (readyJob []).exitcode ∧ j2.status = (readyJob []).status)) :=
  ⟨by decide, by decide, by decide,
   latest_link_soft_abort fsLatestIsFile fsLatestIsFile osEnvRenameCleanupFail osEnvOk
     "base/job-1" 9 (readyJob []) (by decide) (by decide) (by decide)⟩

/-! ### C7 -/

/-- C7: for every job whose `_setup_job_results` (and whose `setup()`)
completes, the results directory contains the marker file `id` whose
content is exactly the job's `unique_id` followed by one newline, and the
id-file write is followed by a flush and an fsync before the phase
returns.  The optional category bookkeeping cannot disturb the marker:
its `os.symlink` never replaces an existing entry. -/
theorem id_marker_round_trip (j : Job) (env : SetupEnv) (fs : FS) (j2 j3 : Job)
    (fs2 fs3 : FS) (ev ev3 : List Event)
    (hres : j.setup_job_results env fs = .ok (j2, fs2, ev))
    (hset : j.setup env fs = .ok (j3, fs3, ev3)) :
    fs2.lookup (env.created_logdir ++ "/id") =
      some (FSEntry.file (j2.unique_id ++ "\n")) ∧
    (∃ warns, ev = List.map Event.logWarning warns ++
      [Event.idFileWrite, Event.idFileFlush, Event.idFileFsync]) ∧
    fs3.lookup ((j3.logdir.getD "") ++ "/id") =
      some (FSEntry.file (j3.unique_id ++ "\n")) ∧
    (∃ pre post,
      ev3 = pre ++ [Event.idFileWrite, Event.idFileFlush, Event.idFileFsync] ++ post) := by
  obtain ⟨hj2, fsmid, warns, hfs2, hev⟩ := setup_job_results_ok j env fs j2 fs2 ev hres
  obtain ⟨-, -, -, -, huid, hld, -, -, -, hpp, hlook⟩ := setup_ok j env fs j3 fs3 ev3 hset
  refine ⟨?_, ⟨warns, hev⟩, ?_, hpp⟩
  · subst hfs2
    subst hj2
    simpa using FS.lookup_set_self fsmid (env.created_logdir ++ "/id") _
  · rw [hld, huid]
    simpa using hlook

/-- A configuration with the optional category bookkeeping enabled. -/
def cfgCat : Config :=
  { dry_run_enabled := false, results_dir := none, unique_job_id := none,
    keep_tmp := false, job_category := some "cat1" }

/-- A freshly constructed job with a category configured. -/
def freshJobCat : Job :=
  match Job.init cfgCat "c4dc" [suitePass] with
  | .ok j => j
  | .error _ => readyJob [suitePass]

def sjrW7 := freshJobCat.setup_job_results setupEnv0 fsEmpty

def setW7 := freshJobCat.setup setupEnv0 fsEmpty

/-- Witness for C7 at a fresh category-configured job set up in an empty
filesystem: the id marker survives the category symlink bookkeeping. -/
theorem id_marker_round_trip_witness :
    sjrW7 = .ok (setupJobOr sjrW7 (readyJob []), setupFSOr sjrW7 fsEmpty,
                 setupEventsOr sjrW7) ∧
    setW7 = .ok (setupJobOr setW7 (readyJob []), setupFSOr setW7 fsEmpty,
                 setupEventsOr setW7) ∧
    ((setupFSOr sjrW7 fsEmpty).lookup (setupEnv0.created_logdir ++ "/id") =
       some (FSEntry.file ((setupJobOr sjrW7 (readyJob [])).unique_id ++ "\n")) ∧
     (∃ warns, setupEventsOr sjrW7 = List.map Event.logWarning warns ++
        [Event.idFileWrite, Event.idFileFlush, Event.idFileFsync]) ∧
     (setupFSOr setW7 fsEmpty).lookup
        (((setupJobOr setW7 (readyJob [])).logdir.getD "") ++ "/id") =
       some (FSEntry.file ((setupJobOr setW7 (readyJob [])).unique_id ++ "\n")) ∧
     (∃ pre post, setupEventsOr setW7 =
        pre ++ [Event.idFileWrite, Event.idFileFlush, Event.idFileFsync] ++ post)) :=
  ⟨by decide, by decide,
   id_marker_round_trip freshJobCat setupEnv0 fsEmpty _ _ _ _ _ _
     (by decide) (by decide)⟩

/-! ### C8 -/

theorem run_finally_mark_times (j0 : Job) (env : RunEnv) (X : Job)
    (hts : X.time_start = if j0.time_start = -1 then env.clock_start else j0.time_start)
    (hte : X.time_end = j0.time_end) (htl : X.time_elapsed = j0.time_elapsed) :
    ((X.run_finally env).1.time_start =
      if j0.time_start = -1 then env.clock_start else j0.time_start) ∧
    (j0.time_end = -1 → (X.run_finally env).1.time_end = env.clock_end ∧
      (X.run_finally env).1.time_elapsed =
        env.clock_end - (X.run_finally env).1.time_start) ∧
    (j0.time_end ≠ -1 → (X.run_finally env).1.time_end = j0.time_end ∧
      (X.run_finally env).1.time_elapsed = j0.time_elapsed) := by
  refine ⟨by simp [hts], ?_, ?_⟩
  · intro he
    rw [run_finally_time_end, run_finally_time_elapsed, run_finally_time_start, hte, he]
    simp
  · intro he
    rw [run_finally_time_end, run_finally_time_elapsed, hte, htl]
    rw [if_neg he, if_neg he]
    exact ⟨rfl, rfl⟩

/-- C8: for every completed `run()`, `time_start` is sampled only when it
was still unset (a re-entrant call never overwrites it), and
`time_end`/`time_elapsed` are captured in the unconditional finalization
step exactly when `time_end` was still unset. -/
theorem time_fields_set_once (j : Job) (env : RunEnv) (j2 : Job) (code : Nat)
    (ev : List Event) (h : j.run env = .ok (j2, code, ev)) :
    (j.time_start = -1 → j2.time_start = env.clock_start) ∧
    (j.time_start ≠ -1 → j2.time_start = j.time_start) ∧
    (j.time_end = -1 → j2.time_end = env.clock_end ∧
      j2.time_elapsed = env.clock_end - j2.time_start) ∧
    (j.time_end ≠ -1 → j2.time_end = j.time_end ∧ j2.time_elapsed = j.time_elapsed) := by
  by_cases htd : j.tmpdir = none
  · unfold Job.run at h
    rw [if_pos htd] at h
    cases h
  obtain ⟨td, htd2⟩ := Option.ne_none_iff_exists'.mp htd
  by_cases hres : j.result = none
  · unfold Job.run at h
    rw [if_neg (by simp [htd2])] at h
    simp only [mark_time_start_result, hres] at h
    cases h
  obtain ⟨n, hres2⟩ := Option.ne_none_iff_exists'.mp hres
  have key : (j2.time_start = if j.time_start = -1 then env.clock_start
                else j.time_start) ∧
      (j.time_end = -1 → j2.time_end = env.clock_end ∧
        j2.time_elapsed = env.clock_end - j2.time_start) ∧
      (j.time_end ≠ -1 → j2.time_end = j.time_end ∧
        j2.time_elapsed = j.time_elapsed) := by
    cases hg : env.guarded with
    | normal =>
      rw [run_normal j env td n htd2 hres2 hg] at h
      obtain ⟨h2, -, -⟩ := by simpa using h
      subst h2
      exact run_finally_mark_times j env _
        (by simp [run_tests_time_start, mark_time_start_time_start])
        (by simp [run_tests_time_end]) (by simp [run_tests_time_elapsed])
    | raiseJobBase st =>
      rw [run_jobbase j env td n st htd2 hres2 hg] at h
      obtain ⟨h2, -, -⟩ := by simpa using h
      subst h2
      exact run_finally_mark_times j env _
        (by simp [mark_time_start_time_start]) (by simp) (by simp)
    | raiseOptValidation =>
      rw [run_optval j env td n htd2 hres2 hg] at h
      obtain ⟨h2, -, -⟩ := by simpa using h
      subst h2
      exact run_finally_mark_times j env _
        (by simp [mark_time_start_time_start]) (by simp) (by simp)
    | raiseOther =>
      rw [run_other j env td n htd2 hres2 hg] at h
      obtain ⟨h2, -, -⟩ := by simpa using h
      subst h2
      exact run_finally_mark_times j env _
        (by simp [mark_time_start_time_start]) (by simp) (by simp)
  obtain ⟨k1, k2, k3⟩ := key
  exact ⟨fun hts => by rw [k1, if_pos hts], fun hts => by rw [k1, if_neg hts], k2, k3⟩

def runW8 := (readyJob [suitePass]).run envNormal

/-- Witness for C8 at a concrete first run. -/
theorem time_fields_set_once_witness :
    (readyJob [suitePass]).run envNormal =
      .ok (runJobOr runW8 (readyJob []), runCodeOr runW8 0, runEventsOr runW8) ∧
    (((readyJob [suitePass]).time_start = -1 →
        (runJobOr runW8 (readyJob [])).time_start = envNormal.clock_start) ∧
     ((readyJob [suitePass]).time_start ≠ -1 →
        (runJobOr runW8 (readyJob [])).time_start = (readyJob [suitePass]).time_start) ∧
     ((readyJob [suitePass]).time_end = -1 →
        (runJobOr runW8 (readyJob [])).time_end = envNormal.clock_end ∧
        (runJobOr runW8 (readyJob [])).time_elapsed =
          envNormal.clock_end - (runJobOr runW8 (readyJob [])).time_start) ∧
     ((readyJob [suitePass]).time_end ≠ -1 →
        (runJobOr runW8 (readyJob [])).time_end = (readyJob [suitePass]).time_end ∧
        (runJobOr runW8 (readyJob [])).time_elapsed =
          (readyJob [suitePass]).time_elapsed)) :=
  ⟨by decide,
   time_fields_set_once (readyJob [suitePass]) envNormal (runJobOr runW8 (readyJob []))
     (runCodeOr runW8 0) (runEventsOr runW8) (by decide)⟩

/-! ### C9 -/

/-- C9: calling `run()` before `setup()` has completed (no `tmpdir`) fails
with the `"Job.setup() not called"` assertion before any phase executes;
calling `setup()` twice fails with the `"Job.setup() already called"`
assertion; and when the call-once protocol is respected the error branches
are unreachable: a completed `setup()` leaves `tmpdir` and `result`
allocated, and `run()` on such a job always returns normally. -/
theorem call_once_protocol (jf js : Job) (envr : RunEnv) (envs : SetupEnv) (fs : FS)
    (hf : jf.tmpdir = none) (hs : js.tmpdir ≠ none) :
    (jf.run envr = .error (JobError.assertionFailed "Job.setup() not called")) ∧
    (js.setup envs fs = .error (JobError.assertionFailed "Job.setup() already called")) ∧
    (∀ j2 fs2 ev, jf.setup envs fs = .ok (j2, fs2, ev) →
      j2.tmpdir ≠ none ∧ j2.result ≠ none) ∧
    (js.result ≠ none → ∃ out, js.run envr = .ok out) := by
  refine ⟨?_, ?_, ?_, ?_⟩
  · unfold Job.run
    rw [if_pos hf]
  · unfold Job.setup
    dsimp only
    rw [if_pos hs]
  · intro j2 fs2 ev h
    obtain ⟨ht, hr, -⟩ := setup_ok jf envs fs j2 fs2 ev h
    rw [ht, hr]
    exact ⟨by simp, by simp⟩
  · intro hresn
    obtain ⟨td, htd2⟩ := Option.ne_none_iff_exists'.mp hs
    obtain ⟨n, hres2⟩ := Option.ne_none_iff_exists'.mp hresn
    cases hg : envr.guarded with
    | normal => exact ⟨_, run_normal js envr td n htd2 hres2 hg⟩
    | raiseJobBase st => exact ⟨_, run_jobbase js envr td n st htd2 hres2 hg⟩
    | raiseOptValidation => exact ⟨_, run_optval js envr td n htd2 hres2 hg⟩
    | raiseOther => exact ⟨_, run_other js envr td n htd2 hres2 hg⟩

/-- Witness for C9 at a fresh job and a set-up job. -/
theorem call_once_protocol_witness :
    (freshJob [suitePass]).tmpdir = none ∧ (readyJob [suitePass]).tmpdir ≠ none ∧
    (((freshJob [suitePass]).run envNormal =
        .error (JobError.assertionFailed "Job.setup() not called")) ∧
     ((readyJob [suitePass]).setup setupEnv0 fsEmpty =
        .error (JobError.assertionFailed "Job.setup() already called")) ∧
     (∀ j2 fs2 ev, (freshJob [suitePass]).setup setupEnv0 fsEmpty = .ok (j2, fs2, ev) →
        j2.tmpdir ≠ none ∧ j2.result ≠ none) ∧
     ((readyJob [suitePass]).result ≠ none →
        ∃ out, (readyJob [suitePass]).run envNormal = .ok out)) :=
  ⟨by decide, by decide,
   call_once_protocol (freshJob [suitePass]) (readyJob [suitePass]) envNormal setupEnv0
     fsEmpty (by decide) (by decide)⟩

/-! ### C10 -/

/-- C10: when the guarded region raises an `OptionValidationError`, the
JOB_FAIL bit is OR-ed into the exit code and `run()` returns, but the
status is left unchanged (in particular it stays `"RUNNING"` on a first
run) — unlike the `JobBaseException` path, which sets the status carried by
the exception, and the unrecognized-failure path, which sets `"ERROR"`. -/
theorem option_validation_leaves_status (j : Job) (envv envb envo : RunEnv) (st : String)
    (htd : j.tmpdir ≠ none) (hres : j.result ≠ none)
    (hv : envv.guarded = GuardedBehavior.raiseOptValidation)
    (hb : envb.guarded = GuardedBehavior.raiseJobBase st)
    (ho : envo.guarded = GuardedBehavior.raiseOther) :
    (exceptIsOk (j.run envv) = true ∧
     runCodeOr (j.run envv) 0 = j.exitcode ||| AVOCADO_JOB_FAIL ∧
     (runJobOr (j.run envv) j).status = j.status ∧
     (runJobOr (j.run envv) j).exitcode = j.exitcode ||| AVOCADO_JOB_FAIL) ∧
    ((runJobOr (j.run envb) j).status = st) ∧
    ((runJobOr (j.run envo) j).status = "ERROR") := by
  obtain ⟨td, htd2⟩ := Option.ne_none_iff_exists'.mp htd
  obtain ⟨n, hres2⟩ := Option.ne_none_iff_exists'.mp hres
  rw [run_optval j envv td n htd2 hres2 hv, run_jobbase j envb td n st htd2 hres2 hb,
      run_other j envo td n htd2 hres2 ho]
  simp [exceptIsOk, runCodeOr, runJobOr]

/-- Witness for C10 at a concrete set-up job under the three failure modes. -/
theorem option_validation_leaves_status_witness :
    (readyJob [suitePass]).tmpdir ≠ none ∧ (readyJob [suitePass]).result ≠ none ∧
    envOptVal.guarded = GuardedBehavior.raiseOptValidation ∧
    envJobBase.guarded = GuardedBehavior.raiseJobBase "FAIL" ∧
    envCrash.guarded = GuardedBehavior.raiseOther ∧
    ((exceptIsOk ((readyJob [suitePass]).run envOptVal) = true ∧
      runCodeOr ((readyJob [suitePass]).run envOptVal) 0 =
        (readyJob [suitePass]).exitcode ||| AVOCADO_JOB_FAIL ∧
      (runJobOr ((readyJob [suitePass]).run envOptVal) (readyJob [suitePass])).status =
        (readyJob [suitePass]).status ∧
      (runJobOr ((readyJob [suitePass]).run envOptVal) (readyJob [suitePass])).exitcode =
        (readyJob [suitePass]).exitcode ||| AVOCADO_JOB_FAIL) ∧
     ((runJobOr ((readyJob [suitePass]).run envJobBase) (readyJob [suitePass])).status =
        "FAIL") ∧
     ((runJobOr ((readyJob [suitePass]).run envCrash) (readyJob [suitePass])).status =
        "ERROR")) :=
  ⟨by decide, by decide, by decide, by decide, by decide,
   option_validation_leaves_status (readyJob [suitePass]) envOptVal envJobBase envCrash
     "FAIL" (by decide) (by decide) (by decide) (by decide) (by decide)⟩

example : basename "base/job-1" = "job-1" := by decide

example :
    update_latest_link ⟨[("base/job-1", FSEntry.dir)]⟩ ⟨false, false, true, true⟩
      "base/job-1" 7 = .error OSErr.osError := by decide

example :
    update_latest_link ⟨[("base/job-1", FSEntry.dir)]⟩ ⟨false, false, false, false⟩
      "base/job-1" 7 =
    .ok (⟨[("base/latest", FSEntry.symlink "base/job-1"), ("base/job-1", FSEntry.dir)]⟩, []) := by
  decide

end Avocado
